import Mathlib

/-!
Shallow embedding of `src/components/BarChart/BarChart.js` from the
react-charts-d3 repository, together with theorems about the behaviour of
the `BarChart` component: its render output, its lifecycle state
transitions, and its interaction-event handling.

Only `BarChart.js` is in the repository snapshot.  The utility modules it
imports (`utils/chart.js` with `calculateChartValues` and
`mapSeriesToData`, `utils/scales.js` with `calculateColorScale`, the
common type declarations, and the presentation children `Bars`, `Axis`,
`Legend`, `NoData`) are absent; where a definition below models one of
those, its doc comment says so and names the missing file, and the model
follows the specification text.  Everything else is translated directly
from `BarChart.js`.
-/

/-- One data point of a series: a category label paired with a numeric
value.  Modelled from the spec: `utils/commonTypes.js` is not in the
snapshot; the spec describes a chart datum as a named series with an
ordered list of (category, value) points. -/
structure Point where
  category : String
  value : Int
deriving DecidableEq, Repr

/-- One chart series (`ChartData` in `utils/commonTypes.js`).  Modelled
from the spec: a named series with an ordered list of (category, value)
points and a disabled flag. -/
structure ChartData where
  key : String
  values : List Point
  disabled : Bool
deriving DecidableEq, Repr

/-- Margin record with four numeric insets, as used by `BarChart.js`
(`margin.top`, `margin.left`, `margin.bottom`, `margin.right`). -/
structure Margin where
  top : Int
  left : Int
  bottom : Int
  right : Int
deriving DecidableEq, Repr

/-- Axis configuration object, with the fields given in
`BarChart.defaultProps.axisConfig`. -/
structure AxisConfig where
  showXAxis : Bool
  showXAxisLabel : Bool
  xLabel : String
  xLabelPosition : String
  showYAxis : Bool
  showYAxisLabel : Bool
  yLabel : String
  yLabelPosition : String
deriving DecidableEq, Repr

/-- Two-color gradient specification (`ColorScale` in
`utils/commonTypes.js`), with the `from` and `to` fields of
`BarChart.defaultProps.colorScale`.  The field names are prefixed because
`from` and `to` are reserved words in Lean. -/
structure ColorScale where
  colorFrom : String
  colorTo : String
deriving DecidableEq, Repr

/-- The color function held in `BarChart` state.  Modelled from the spec:
`utils/scales.js` is not in the snapshot; the spec says the color scale is
either a two-color gradient or a discrete category scheme, resolved once
per data length from the color configuration, and that the mapping is
deterministic for a given data length and color configuration.  We
therefore represent a resolved color function by the inputs that determine
it; `initialFn` stands for the placeholder `() => undefined` installed by
the state initializer. -/
inductive ColorFn where
  | initialFn
  | computed (dataLength : Nat) (useColorScale : Bool)
      (colorScale : ColorScale) (colorSchemeCategory : List String)
deriving DecidableEq, Repr

/-- Modelled from the spec: `scales.calculateColorScale` from
`utils/scales.js` is not in the snapshot.  Per the spec it resolves a
deterministic color mapping from the data length, the `useColorScale`
flag, the gradient specification and the category scheme; the resolved
mapping is represented by those inputs. -/
def calculateColorScale (dataLength : Nat) (useColorScale : Bool)
    (colorScale : ColorScale) (colorSchemeCategory : List String) : ColorFn :=
  ColorFn.computed dataLength useColorScale colorScale colorSchemeCategory

/-- The props of `BarChart` (the `Props` flow type in `BarChart.js`).
`data` is an `Option` because the component can be instantiated without a
`data` prop: `data` has no entry in `defaultProps`, so it can be
`undefined`, which `none` models.  The `eventDispatcher` prop is modelled
separately (`Dispatcher` below) because it is function-valued. -/
structure Props where
  data : Option (List ChartData)
  width : Nat
  height : Nat
  margin : Margin
  showLegend : Bool
  axisConfig : AxisConfig
  showGridX : Bool
  showGridY : Bool
  xScaleType : String
  yScaleType : String
  tickFormat : String
  useColorScale : Bool
  colorScale : ColorScale
  colorSchemeCategory : List String
  barSpacing : Rat
  animate : Bool
  duration : Nat
  delay : Nat
  fluid : Bool
  noDataMessage : String
deriving DecidableEq, Repr

/-- `BarChart.defaultProps`, translated field by field from the source.
`data` has no default in the source, so it is a parameter here. -/
def defaultProps (data : Option (List ChartData)) : Props :=
  { data := data
    width := 600
    height := 200
    margin := { top := 20, left := 40, bottom := 30, right := 10 }
    showLegend := true
    axisConfig :=
      { showXAxis := true
        showXAxisLabel := true
        xLabel := "X Axis"
        xLabelPosition := "right"
        showYAxis := true
        showYAxisLabel := true
        yLabel := "Y Axis"
        yLabelPosition := "top" }
    showGridX := true
    showGridY := true
    xScaleType := "band"
    yScaleType := "linear"
    tickFormat := ".0f"
    useColorScale := true
    colorScale := { colorFrom := "#008793", colorTo := "#00bf72" }
    colorSchemeCategory := []
    barSpacing := (5 : Rat) / 100
    animate := true
    duration := 500
    delay := 50
    fluid := true
    noDataMessage := "No Data Available." }

/-- The component state (the `State` flow type in `BarChart.js`): the
displayed data, the displayed width, and the resolved color function. -/
structure State where
  data : List ChartData
  width : Nat
  color : ColorFn
deriving DecidableEq, Repr

/-- The state initializer of `BarChart`: `data: this.props.data || []`,
`width: this.props.fluid ? 0 : this.props.width`, and the placeholder
color function `() => undefined`. -/
def initState (p : Props) : State :=
  { data := p.data.getD []
    width := if p.fluid then 0 else p.width
    color := ColorFn.initialFn }

/-- A mounted component: its state paired with its current props. -/
structure Component where
  state : State
  props : Props
deriving DecidableEq, Repr

/-- Mounting the component: the state initializer runs (it tolerates an
absent `data` prop through `this.props.data || []`), then
`componentWillMount` destructures `data` from the props and evaluates
`data.length` to compute the color scale.  When the `data` prop is
`undefined`, that property access throws a `TypeError`, which the
`Except.error` branch models; otherwise the computed color is stored in
state. -/
def mountComponent (p : Props) : Except String Component :=
  match p.data with
  | none =>
      Except.error "TypeError: cannot read length of undefined"
  | some d =>
      Except.ok
        { state :=
            { initState p with
                color := calculateColorScale d.length p.useColorScale
                  p.colorScale p.colorSchemeCategory }
          props := p }

/-- `updateDimensions` from `BarChart.js`.  The container argument models
`this.barChart`: `none` when the ref is null, `some ow` when the container
element reports `offsetWidth = ow`.  The source expression
`(this.barChart && this.barChart.offsetWidth) || width` evaluates to the
measured width when the container exists and its measured width is a
truthy number, and otherwise falls back to the `width` prop, because in
JavaScript both `null` and `0` are falsy.  Nothing happens unless `fluid`
is set. -/
def updateDimensions (s : State) (p : Props) (container : Option Nat) : State :=
  if p.fluid then
    { s with
        width :=
          match container with
          | none => p.width
          | some ow => if ow = 0 then p.width else ow }
  else s

/-- `componentDidMount`: registers the resize listener and immediately
runs `updateDimensions` against the rendered container. -/
def componentDidMount (c : Component) (container : Option Nat) : Component :=
  { c with state := updateDimensions c.state c.props container }

/-- The `legendClick` handler registered in `updateChart`:
`d => this.setState({ data: d })`. -/
def legendClickHandler (s : State) (d : List ChartData) : State :=
  { s with data := d }

/-- The `barClick` handler registered in `updateChart`: `() => {}`. -/
def barClickHandler (s : State) : State := s

/-- The `barMouseOver` handler registered in `updateChart`: `() => {}`. -/
def barMouseOverHandler (s : State) : State := s

/-- The `barMouseOut` handler registered in `updateChart`: `() => {}`. -/
def barMouseOutHandler (s : State) : State := s

/-- The four event names of the dispatcher created by
`defaultProps.eventDispatcher`: `dispatch(legendClick, barClick,
barMouseOver, barMouseOut)`. -/
inductive EventName where
  | legendClick
  | barClick
  | barMouseOver
  | barMouseOut
deriving DecidableEq, Repr

/-- The handler registered under one event name of the dispatcher.
`hostHandler id` stands for an arbitrary handler installed by the host
application; `legendReplace` and `noop` are the two handlers `updateChart`
installs; `unset` is an empty slot. -/
inductive Handler where
  | unset
  | hostHandler (id : Nat)
  | legendReplace
  | noop
deriving DecidableEq, Repr

/-- A dispatcher assigns a handler to each of its event names (the
d3-dispatch object held by the `eventDispatcher` prop). -/
def Dispatcher : Type := EventName → Handler

/-- The effect of `updateChart` on the dispatcher (lines 181 to 184 of
`BarChart.js`): `eventDispatcher.on` replaces the handler stored under the
given name, so all four slots are overwritten.  The other statements of
`updateChart` set attributes on the svg node and attach series metadata
(`chart.mapSeriesToData`); they do not touch component state or the
dispatcher. -/
def updateChartDispatch (_disp : Dispatcher) : Dispatcher :=
  fun e =>
    match e with
    | EventName.legendClick => Handler.legendReplace
    | EventName.barClick => Handler.noop
    | EventName.barMouseOver => Handler.noop
    | EventName.barMouseOut => Handler.noop

/-- A lifecycle event after mounting.  `propsChange` models the parent
passing new props: `BarChart` declares no lifecycle hook that recomputes
state from new props, so only the props field changes.  `resize` models
the window resize listener calling `updateDimensions` with the current
container measurement.  The remaining events model the dispatcher
delivering an interaction event to the handlers that `updateChart`
registers on every render. -/
inductive LifeEvent where
  | propsChange (p : Props)
  | resize (container : Option Nat)
  | legendClick (d : List ChartData)
  | barClick
  | barMouseOver
  | barMouseOut
deriving DecidableEq, Repr

/-- One lifecycle step of a mounted component. -/
def stepEvent (c : Component) (e : LifeEvent) : Component :=
  match e with
  | LifeEvent.propsChange p => { c with props := p }
  | LifeEvent.resize container =>
      { c with state := updateDimensions c.state c.props container }
  | LifeEvent.legendClick d => { c with state := legendClickHandler c.state d }
  | LifeEvent.barClick => { c with state := barClickHandler c.state }
  | LifeEvent.barMouseOver => { c with state := barMouseOverHandler c.state }
  | LifeEvent.barMouseOut => { c with state := barMouseOutHandler c.state }

/-- Folding a list of lifecycle events over a mounted component. -/
def runEvents (c : Component) (evts : List LifeEvent) : Component :=
  evts.foldl stepEvent c

/-- The categories of one series, in order. -/
def seriesCategories (d : ChartData) : List String :=
  d.values.map Point.category

/-- First-occurrence deduplication of a category list, carrying the set of
categories already seen. -/
def dedupSeen : List String → List String → List String
  | [], _ => []
  | c :: rest, seen =>
      if seen.contains c then dedupSeen rest seen
      else c :: dedupSeen rest (c :: seen)

/-- All distinct categories appearing across the given series, in order of
first appearance. -/
def allCategories (data : List ChartData) : List String :=
  dedupSeen (data.foldr (fun d acc => seriesCategories d ++ acc) []) []

/-- The largest value appearing in the given series (at least 0). -/
def maxValue (data : List ChartData) : Int :=
  data.foldr (fun d acc => d.values.foldr (fun pt m => max pt.value m) acc) 0

/-- A scale produced by the layout computation.  Modelled from the spec: a
scale maps a data domain (category list for the band x-scale, a numeric
range for the linear y-scale) to a pixel range; it is represented by its
scale type, its domain and its pixel range. -/
structure Scale where
  scaleType : String
  domainCats : List String
  domainMax : Int
  rangePx : Int
deriving DecidableEq, Repr

/-- The record returned by `chart.calculateChartValues`: plot width and
height, margins, and the two scales, destructured in `render` as
`{ w, h, m, x, y }`. -/
structure ChartValues where
  w : Int
  h : Int
  m : Margin
  x : Scale
  y : Scale
deriving DecidableEq, Repr

/-- Modelled from the spec: `chart.calculateChartValues` from
`utils/chart.js` is not in the snapshot.  Per the spec the derived layout
is the plot width and height after margin subtraction together with two
scale functions computed from the data: a categorical scale over the
category domain for the x axis and a numeric scale up to the largest value
for the y axis, each ranging over the corresponding pixel extent. -/
def calculateChartValues (data : List ChartData) (width : Nat) (height : Nat)
    (margin : Margin) (xScaleType : String) (yScaleType : String) : ChartValues :=
  let w : Int := (width : Int) - margin.left - margin.right
  let h : Int := (height : Int) - margin.top - margin.bottom
  { w := w
    h := h
    m := margin
    x :=
      { scaleType := xScaleType
        domainCats := allCategories data
        domainMax := 0
        rangePx := w }
    y :=
      { scaleType := yScaleType
        domainCats := []
        domainMax := maxValue data
        rangePx := h } }

/-- The layout computed inside `render`: `calculateChartValues` applied to
`data.filter(d => !d.disabled)` with the state width and the `height`,
`margin` and scale-type props. -/
def renderGeometry (s : State) (p : Props) : ChartValues :=
  calculateChartValues (s.data.filter (fun d => !d.disabled)) s.width p.height
    p.margin p.xScaleType p.yScaleType

/-- The props handed to the `Legend` child in `render`. -/
structure LegendProps where
  data : List ChartData
  width : Nat
  margin : Margin
  color : ColorFn
  showLegend : Bool
deriving DecidableEq, Repr

/-- The props handed to the `Axis` child in `render`. -/
structure AxisProps where
  data : List ChartData
  width : Nat
  height : Int
  margin : Margin
  x : Scale
  y : Scale
  axisConfig : AxisConfig
  showGridX : Bool
  showGridY : Bool
  tickFormat : String
deriving DecidableEq, Repr

/-- The props handed to the `Bars` child in `render`. -/
structure BarsProps where
  data : List ChartData
  height : Int
  x : Scale
  y : Scale
  color : ColorFn
  barSpacing : Rat
  animate : Bool
  duration : Nat
  delay : Nat
deriving DecidableEq, Repr

/-- A node of the virtual tree rendered inside the svg element: the
`NoData` placeholder with the props it receives, a text node (the
rendering a numeric JSX child produces), or the `g.wrapper` group holding
the `Legend`, `Axis` and `Bars` children with the props each receives. -/
inductive ReactNode where
  | noData (width : Nat) (height : Nat) (noDataMessage : String)
  | text (s : String)
  | wrapper (legend : LegendProps) (axis : AxisProps) (bars : BarsProps)
deriving DecidableEq, Repr

/-- The JSX child `{!xs.length && node}`.  In JavaScript `!n` is `true`
exactly when the number `n` is `0`; the boolean `false` renders to
nothing. -/
def guardNotLength (n : Nat) (node : ReactNode) : List ReactNode :=
  if n = 0 then [node] else []

/-- The JSX child `{xs.length && node}`.  When the length is a nonzero
number the conjunction yields `node`; when it is `0` the conjunction
yields the number `0` itself, and React renders a numeric child as a text
node, so an empty list produces the text node rendering the digit zero. -/
def guardLength (n : Nat) (node : ReactNode) : List ReactNode :=
  if n = 0 then [ReactNode.text "0"] else [node]

/-- The children of the svg element produced by `BarChart.render`,
translated from the JSX on lines 231 to 273: the placeholder guarded by
`!data.length`, then the wrapper group guarded by `data.length`, whose
children receive the geometry from `calculateChartValues` over the
filtered data together with the state data, state width, state color and
the configuration props. -/
def renderChildren (s : State) (p : Props) : List ReactNode :=
  let cv := renderGeometry s p
  guardNotLength s.data.length
      (ReactNode.noData s.width p.height p.noDataMessage)
    ++ guardLength s.data.length
      (ReactNode.wrapper
        { data := s.data
          width := s.width
          margin := cv.m
          color := s.color
          showLegend := p.showLegend }
        { data := s.data
          width := s.width
          height := cv.h
          margin := cv.m
          x := cv.x
          y := cv.y
          axisConfig := p.axisConfig
          showGridX := p.showGridX
          showGridY := p.showGridY
          tickFormat := p.tickFormat }
        { data := s.data
          height := cv.h
          x := cv.x
          y := cv.y
          color := s.color
          barSpacing := p.barSpacing
          animate := p.animate
          duration := p.duration
          delay := p.delay })

/-- The full effect of one `render` call: the produced children together
with the dispatcher after `updateChart` re-registers the four handlers
(line 217 calls `updateChart` unconditionally on every render). -/
def renderEffect (s : State) (p : Props) (disp : Dispatcher) :
    List ReactNode × Dispatcher :=
  (renderChildren s p, updateChartDispatch disp)

/-- The data the `Bars` child receives in the first wrapper group of a
rendered child list, when one exists. -/
def barsDataOf : List ReactNode → Option (List ChartData)
  | [] => none
  | ReactNode.wrapper _ _ b :: _ => some b.data
  | _ :: rest => barsDataOf rest

/-- A sample enabled series. -/
def appleSeries : ChartData :=
  { key := "apples"
    values := [{ category := "jan", value := 3 }, { category := "feb", value := 5 }]
    disabled := false }

/-- A sample disabled series. -/
def pearSeries : ChartData :=
  { key := "pears"
    values := [{ category := "jan", value := 7 }]
    disabled := true }

/-- Default props carrying one enabled series. -/
def mountProps : Props := defaultProps (some [appleSeries])

/-- Default props carrying two series, one of them disabled. -/
def changedProps : Props := defaultProps (some [appleSeries, pearSeries])

/-- Default props with fluid sizing switched off. -/
def fixedProps : Props := { defaultProps (some [appleSeries]) with fluid := false }

/-- The component obtained by mounting with `mountProps`. -/
def mountedComponent : Component :=
  { state :=
      { data := [appleSeries]
        width := 0
        color :=
          calculateColorScale 1 true
            { colorFrom := "#008793", colorTo := "#00bf72" } [] }
    props := mountProps }

/-- The component obtained by mounting with an explicitly empty data
array. -/
def emptyDataComponent : Component :=
  { state :=
      { data := []
        width := 0
        color :=
          calculateColorScale 0 true
            { colorFrom := "#008793", colorTo := "#00bf72" } [] }
    props := defaultProps (some []) }

/-- Helper: no lifecycle step changes the color held in state; the color
is written only by `componentWillMount`, once, before mounting. -/
theorem stepEvent_color (c : Component) (e : LifeEvent) :
    (stepEvent c e).state.color = c.state.color := by
  cases e with
  | propsChange p => rfl
  | resize container =>
      show (updateDimensions c.state c.props container).color = c.state.color
      unfold updateDimensions
      split <;> rfl
  | legendClick d => rfl
  | barClick => rfl
  | barMouseOver => rfl
  | barMouseOut => rfl

/-- C1: the claim says that for an empty data array `render` produces only
the no-data placeholder.  Evaluating `render` at an empty data array shows
the placeholder is produced with the displayed width, the height prop and
the noDataMessage prop, and that no legend, axis or bar children appear;
but a second child is also produced: the JSX guard `data.length && ...`
evaluates to the number `0` for empty data, and React renders a numeric
child as a text node, so a stray text node rendering the digit zero
appears beside the placeholder. -/
theorem barChart_C1_empty_render_eval :
    renderChildren { data := [], width := 600, color := ColorFn.initialFn }
        (defaultProps (some [])) =
      [ReactNode.noData 600 200 "No Data Available.", ReactNode.text "0"] := by
  rfl

/-- C2: the plot geometry computed during render is taken over the data
with disabled series filtered out, so a series whose disabled flag is set
contributes nothing to the computed scales or dimensions: removing it from
the state data leaves the computed geometry unchanged. -/
theorem barChart_C2_disabled_series_excluded_from_geometry
    (s : State) (p : Props) (pre post : List ChartData) (d : ChartData)
    (hdis : d.disabled = true) (hdata : s.data = pre ++ d :: post) :
    renderGeometry s p = renderGeometry { s with data := pre ++ post } p := by
  simp [renderGeometry, hdata, List.filter_append, List.filter_cons, hdis]

/-- Witness for C2 at a concrete disabled series. -/
theorem barChart_C2_witness :
    renderGeometry
        { data := [appleSeries, pearSeries], width := 600, color := ColorFn.initialFn }
        changedProps =
      renderGeometry
        { data := [appleSeries], width := 600, color := ColorFn.initialFn }
        changedProps :=
  barChart_C2_disabled_series_excluded_from_geometry
    { data := [appleSeries, pearSeries], width := 600, color := ColorFn.initialFn }
    changedProps [appleSeries] [] pearSeries rfl rfl

/-- C3 counterexample: the claim says the data passed to the bar-drawing
child contains no series with disabled = true.  At a concrete state
holding one enabled and one disabled series, the `Bars` child receives the
full unfiltered state data, and that data contains the disabled series:
only the geometry computation filters disabled series out. -/
theorem barChart_C3_counterexample :
    barsDataOf
        (renderChildren
          { data := [appleSeries, pearSeries], width := 600, color := ColorFn.initialFn }
          changedProps) =
      some [appleSeries, pearSeries] ∧ pearSeries.disabled = true :=
  ⟨rfl, rfl⟩

/-- C3 amended: the `Bars` child receives exactly the unfiltered state
data, disabled series included; only the geometry handed to it is computed
from the filtered data. -/
theorem barChart_C3_amended_bars_receive_unfiltered_data
    (s : State) (p : Props) (h : s.data ≠ []) :
    barsDataOf (renderChildren s p) = some s.data := by
  have hlen : s.data.length ≠ 0 := fun hl => h (List.length_eq_zero.mp hl)
  simp [renderChildren, guardNotLength, guardLength, hlen, barsDataOf]

/-- Witness for the amended C3 at a concrete non-empty state. -/
theorem barChart_C3_amended_witness :
    barsDataOf
        (renderChildren
          { data := [appleSeries], width := 600, color := ColorFn.initialFn }
          mountProps) =
      some [appleSeries] :=
  barChart_C3_amended_bars_receive_unfiltered_data
    { data := [appleSeries], width := 600, color := ColorFn.initialFn }
    mountProps (List.cons_ne_nil _ _)

/-- C4 counterexample: the claim says the color in state is recomputed
whenever data, useColorScale, colorScale or colorSchemeCategory change.
Mounting with a one-series data prop and then delivering new props with a
two-series data prop leaves the state color at the mapping computed from
the mount-time props, which differs from the mapping computed from the new
prop values: no lifecycle hook of `BarChart` recomputes the color after
`componentWillMount`. -/
theorem barChart_C4_counterexample :
    mountComponent mountProps = Except.ok mountedComponent ∧
    (stepEvent mountedComponent (LifeEvent.propsChange changedProps)).state.color ≠
      calculateColorScale (changedProps.data.getD []).length
        changedProps.useColorScale changedProps.colorScale
        changedProps.colorSchemeCategory :=
  ⟨rfl, by decide⟩

/-- C4 amended: the color scale is computed exactly once, from the props
present at mount time, and is never recomputed afterwards: after any
sequence of lifecycle events (prop changes, resizes, interaction events)
the state color still equals the mapping computed from the mount-time
props. -/
theorem barChart_C4_amended_color_fixed_at_mount
    (p : Props) (d : List ChartData) (hd : p.data = some d)
    (c : Component) (hc : mountComponent p = Except.ok c)
    (evts : List LifeEvent) :
    (runEvents c evts).state.color =
      calculateColorScale d.length p.useColorScale p.colorScale
        p.colorSchemeCategory := by
  have hcolor : c.state.color =
      calculateColorScale d.length p.useColorScale p.colorScale
        p.colorSchemeCategory := by
    unfold mountComponent at hc
    rw [hd] at hc
    injection hc with h
    rw [← h]
  clear hc
  induction evts generalizing c with
  | nil => exact hcolor
  | cons e rest ih =>
      exact ih (stepEvent c e) ((stepEvent_color c e).trans hcolor)

/-- Witness for the amended C4: after a concrete prop change the color is
still the mount-time mapping. -/
theorem barChart_C4_amended_witness :
    (runEvents mountedComponent [LifeEvent.propsChange changedProps]).state.color =
      calculateColorScale 1 true
        { colorFrom := "#008793", colorTo := "#00bf72" } [] :=
  barChart_C4_amended_color_fixed_at_mount mountProps [appleSeries] rfl
    mountedComponent rfl [LifeEvent.propsChange changedProps]

/-- C5 counterexample: the claim says that with fluid sizing the displayed
width is recomputed to the container measured width on every resize.  When
the container measures 0, the source expression
`(this.barChart && this.barChart.offsetWidth) || width` falls back to the
width prop because `0` is falsy: the state width becomes 600, not the
measured 0. -/
theorem barChart_C5_counterexample :
    (updateDimensions
        { data := [appleSeries], width := 50, color := ColorFn.initialFn }
        mountProps (some 0)).width = 600 ∧
    mountProps.fluid = true ∧ (600 : Nat) ≠ 0 :=
  ⟨rfl, rfl, by decide⟩

/-- C5 amended: with fluid sizing, a resize sets the displayed width to
the container measured width when the container exists and measures a
nonzero width, and falls back to the configured width prop when the
container is absent or measures 0; without fluid sizing, resize events
leave the state entirely unchanged. -/
theorem barChart_C5_amended_resize_width :
    (∀ (s : State) (p : Props) (ow : Nat), p.fluid = true → ow ≠ 0 →
        (updateDimensions s p (some ow)).width = ow) ∧
    (∀ (s : State) (p : Props), p.fluid = true →
        (updateDimensions s p (some 0)).width = p.width ∧
        (updateDimensions s p none).width = p.width) ∧
    (∀ (s : State) (p : Props) (container : Option Nat), p.fluid = false →
        updateDimensions s p container = s) := by
  refine ⟨?_, ?_, ?_⟩
  · intro s p ow hf hnz
    simp [updateDimensions, hf, hnz]
  · intro s p hf
    exact ⟨by simp [updateDimensions, hf], by simp [updateDimensions, hf]⟩
  · intro s p container hf
    simp [updateDimensions, hf]

/-- Witness for the amended C5 at concrete measurements. -/
theorem barChart_C5_amended_witness :
    (updateDimensions
        { data := [appleSeries], width := 600, color := ColorFn.initialFn }
        mountProps (some 300)).width = 300 ∧
    updateDimensions
        { data := [appleSeries], width := 600, color := ColorFn.initialFn }
        fixedProps (some 300) =
      { data := [appleSeries], width := 600, color := ColorFn.initialFn } :=
  ⟨barChart_C5_amended_resize_width.1
      { data := [appleSeries], width := 600, color := ColorFn.initialFn }
      mountProps 300 rfl (by decide),
    barChart_C5_amended_resize_width.2.2
      { data := [appleSeries], width := 600, color := ColorFn.initialFn }
      fixedProps (some 300) rfl⟩

/-- C6: the handler registered under legendClick is
`d => this.setState({ data: d })`: after it runs with payload d the state
data equals d, whatever handler the dispatcher previously held. -/
theorem barChart_C6_legend_click_replaces_data
    (disp : Dispatcher) (s : State) (d : List ChartData) :
    updateChartDispatch disp EventName.legendClick = Handler.legendReplace ∧
    (legendClickHandler s d).data = d :=
  ⟨rfl, rfl⟩

/-- C7: the claim says absent data and empty data both degrade gracefully
to the placeholder without failing.  Empty data mounts fine, but with the
data prop absent `componentWillMount` destructures `data` from the props
and evaluates `data.length`, which throws a TypeError: the `|| []`
fallback lives only in the state initializer and does not protect the
mount-time color computation. -/
theorem barChart_C7_mount_throws_on_absent_data :
    mountComponent (defaultProps none) =
      Except.error "TypeError: cannot read length of undefined" ∧
    mountComponent (defaultProps (some [])) = Except.ok emptyDataComponent :=
  ⟨rfl, rfl⟩

/-- C8: the handlers registered under barClick, barMouseOver and
barMouseOut are all `() => {}`: running any of them returns the state
unchanged, so data, width and color are exactly as before. -/
theorem barChart_C8_bar_handlers_no_side_effects
    (disp : Dispatcher) (s : State) :
    updateChartDispatch disp EventName.barClick = Handler.noop ∧
    updateChartDispatch disp EventName.barMouseOver = Handler.noop ∧
    updateChartDispatch disp EventName.barMouseOut = Handler.noop ∧
    barClickHandler s = s ∧ barMouseOverHandler s = s ∧
    barMouseOutHandler s = s :=
  ⟨rfl, rfl, rfl, rfl, rfl, rfl⟩

/-- C9: every render calls `updateChart`, which re-registers all four
handlers on the shared dispatcher: after a render the slot under
legendClick holds the state-replacing handler and the slots under
barClick, barMouseOver and barMouseOut hold no-ops, whatever handlers,
host-registered ones included, the dispatcher held before; the resulting
dispatcher does not depend on the previous one at all. -/
theorem barChart_C9_render_overwrites_dispatcher
    (s : State) (p : Props) (disp : Dispatcher) :
    (renderEffect s p disp).2 EventName.legendClick = Handler.legendReplace ∧
    (renderEffect s p disp).2 EventName.barClick = Handler.noop ∧
    (renderEffect s p disp).2 EventName.barMouseOver = Handler.noop ∧
    (renderEffect s p disp).2 EventName.barMouseOut = Handler.noop ∧
    ∀ disp2 : Dispatcher, (renderEffect s p disp).2 = (renderEffect s p disp2).2 :=
  ⟨rfl, rfl, rfl, rfl, fun _ => rfl⟩

/-- C10: with fluid sizing the state initializer sets the displayed width
to 0, so the geometry of the first render is computed with width 0 rather
than the width prop; the measured width is adopted only when
`updateDimensions` runs after mount, the measurement being taken when the
container reports a nonzero width. -/
theorem barChart_C10_fluid_initial_width_zero
    (p : Props) (hf : p.fluid = true) :
    (initState p).width = 0 ∧
    renderGeometry (initState p) p =
      calculateChartValues ((p.data.getD []).filter (fun d => !d.disabled)) 0
        p.height p.margin p.xScaleType p.yScaleType ∧
    (∀ ow : Nat, ow ≠ 0 →
        (updateDimensions (initState p) p (some ow)).width = ow) := by
  refine ⟨?_, ?_, ?_⟩
  · simp [initState, hf]
  · simp [renderGeometry, initState, hf]
  · intro ow hnz
    simp [updateDimensions, initState, hf, hnz]

/-- Witness for C10 at the default props. -/
theorem barChart_C10_witness :
    mountProps.fluid = true ∧ (initState mountProps).width = 0 :=
  ⟨rfl, (barChart_C10_fluid_initial_width_zero mountProps rfl).1⟩
